import Mathlib

/-!
Verification of the Julia-set animator (`src/julia.py`).

The source is a small Python program: a pure escape-time evaluator
`julia_quadratic`, a per-frame grid evaluation in `animate`, and a setup
phase in `__init__`/`generate` that builds the sampling grid (`np.linspace`)
and the angle sequence.  We embed the arithmetic shallowly over an arbitrary
linear ordered field `K` (instantiated at `ℝ` for the theorems, matching the
spec's "real inputs"; Python's floats are idealised as exact real
arithmetic).  Complex numbers are embedded as pairs of field elements, and
the test `abs(z) > 4.` of the source is embedded as `16 < modSq z`, which is
equivalent to it in exact arithmetic since both sides are nonnegative.
-/

namespace JuliaPy

/-- One loop-body update of `julia_quadratic` (src/julia.py line 43):
`z = z ** 2 + c` on Python complex numbers, written on real/imaginary
parts: `(zx + i·zy)² + (cx + i·cy) = (zx·zx - zy·zy + cx) + i·(2·zx·zy + cy)`. -/
def juliaStep {K : Type} [Field K] (z c : K × K) : K × K :=
  (z.1 * z.1 - z.2 * z.2 + c.1, 2 * z.1 * z.2 + c.2)

/-- Squared modulus of a complex number represented as a pair.  The source's
divergence test `abs(z) > 4.` (line 45) is equivalent to `16 < modSq z`. -/
def modSq {K : Type} [Field K] (z : K × K) : K := z.1 * z.1 + z.2 * z.2

/-- The `for i in range(threshold)` loop of `julia_quadratic`
(src/julia.py lines 42-46): `z` is the current iterate, `i` the loop
counter, and the third argument the number of iterations left.  `some i`
models `return i`; `none` models falling through the loop.  The source also
accumulates `traveled += abs(z)`, a dead variable never read (spec §9 notes
this); it is omitted since it cannot affect the result. -/
def juliaLoop {K : Type} [LinearOrderedField K] (c : K × K) : K × K → ℕ → ℕ → Option ℕ
  | _, _, 0 => none
  | z, i, n + 1 =>
    let z' := juliaStep z c
    if 16 < modSq z' then some i else juliaLoop c z' (i + 1) n

/-- `julia_quadratic(zx, zy, cx, cy, threshold)` (src/julia.py lines 22-47):
run the loop for `threshold` iterations (`range` of a nonpositive Python int
is empty, hence `threshold.toNat`); on fall-through return `threshold - 1`
(line 47), an ordinary Python int subtraction. -/
def julia_quadratic {K : Type} [LinearOrderedField K]
    (zx zy cx cy : K) (threshold : ℤ) : ℤ :=
  match juliaLoop (cx, cy) (zx, zy) 0 threshold.toNat with
  | some i => (i : ℤ)
  | none => threshold - 1

/-- Any index returned by the loop lies in `[i, i + n)`. -/
theorem juliaLoop_some_bounds {K : Type} [LinearOrderedField K] (c : K × K) :
    ∀ (n : ℕ) (z : K × K) (i j : ℕ),
      juliaLoop c z i n = some j → i ≤ j ∧ j < i + n := by
  intro n
  induction n with
  | zero => intro z i j h; simp [juliaLoop] at h
  | succ n ih =>
    intro z i j h
    rw [juliaLoop] at h
    by_cases hc : 16 < modSq (juliaStep z c)
    · simp [hc] at h
      omega
    · simp [hc] at h
      have := ih (juliaStep z c) (i + 1) j h
      omega

/-- For threshold ≥ 1 the evaluator's result lies in `[0, threshold - 1]`
(over any linear ordered field). -/
theorem julia_quadratic_bounds {K : Type} [LinearOrderedField K]
    (zx zy cx cy : K) (t : ℤ) (ht : 1 ≤ t) :
    0 ≤ julia_quadratic zx zy cx cy t ∧ julia_quadratic zx zy cx cy t ≤ t - 1 := by
  cases h : juliaLoop ((cx, cy) : K × K) (zx, zy) 0 t.toNat with
  | none => simp only [julia_quadratic, h]; constructor <;> omega
  | some j =>
    have hb := juliaLoop_some_bounds ((cx, cy) : K × K) t.toNat (zx, zy) 0 j h
    have : (j : ℤ) < t := by omega
    simp only [julia_quadratic, h]
    constructor <;> omega

/-- C1: for every threshold ≥ 1 and all real inputs, `julia_quadratic`
returns an integer in `[0, threshold - 1]`: never negative and never
`≥ threshold`. -/
theorem julia_quadratic_range (zx zy cx cy : ℝ) (t : ℤ) (ht : 1 ≤ t) :
    0 ≤ julia_quadratic zx zy cx cy t ∧ julia_quadratic zx zy cx cy t ≤ t - 1 :=
  julia_quadratic_bounds zx zy cx cy t ht

/-- Witness for C1 at a concrete input. -/
theorem julia_quadratic_range_witness :
    0 ≤ julia_quadratic (0 : ℝ) 0 0 0 1 ∧ julia_quadratic (0 : ℝ) 0 0 0 1 ≤ 0 :=
  julia_quadratic_range 0 0 0 0 1 (by norm_num)

/-- C3 counterexample: called with `threshold = 0` (which is `< 1`), the
evaluator does not fail: `range(0)` is empty, line 47 executes, and the
call returns the value `-1` (`threshold - 1`). -/
theorem julia_quadratic_threshold_zero_returns :
    julia_quadratic (0 : ℝ) 0 0 0 0 = -1 := by
  norm_num [julia_quadratic, juliaLoop]

/-- C3 amended: when called with `threshold < 1` the evaluator performs no
validation and raises no error; the loop body never executes and it returns
`threshold - 1` (a negative value, `-1` for `threshold = 0`). -/
theorem julia_quadratic_nonpositive_threshold (zx zy cx cy : ℝ) (t : ℤ)
    (ht : t < 1) : julia_quadratic zx zy cx cy t = t - 1 := by
  have h0 : t.toNat = 0 := by omega
  simp [julia_quadratic, h0, juliaLoop]

/-- Witness for the amended C3 at a concrete input. -/
theorem julia_quadratic_nonpositive_threshold_witness :
    julia_quadratic (1 : ℝ) 2 3 4 (-3) = -4 :=
  julia_quadratic_nonpositive_threshold 1 2 3 4 (-3) (by norm_num)

/-- Negating the starting point does not change the first loop update,
since `(-z)² = z²`. -/
theorem juliaStep_neg {K : Type} [Field K] (zx zy : K) (c : K × K) :
    juliaStep (-zx, -zy) c = juliaStep (zx, zy) c := by
  simp only [juliaStep, Prod.mk.injEq]
  constructor <;> ring

/-- C10: negating the starting point leaves the escape time unchanged: the
divergence check runs only after the update, and from the first iterate on
the two orbits coincide. -/
theorem julia_quadratic_neg_start (zx zy cx cy : ℝ) (t : ℤ) (ht : 1 ≤ t) :
    julia_quadratic (-zx) (-zy) cx cy t = julia_quadratic zx zy cx cy t := by
  cases hn : t.toNat with
  | zero => simp [julia_quadratic, hn, juliaLoop]
  | succ n =>
    simp only [julia_quadratic, hn, juliaLoop]
    rw [juliaStep_neg]

/-- Witness for C10 at a concrete input. -/
theorem julia_quadratic_neg_start_witness :
    julia_quadratic (-1 : ℝ) (-1) 0 0 1 = julia_quadratic (1 : ℝ) 1 0 0 1 :=
  julia_quadratic_neg_start 1 1 0 0 1 (by norm_num)

/-- C2 counterexample: the starting point `z₀ = 5` has `|z₀| = 5 > 4`
(equivalently `modSq z₀ = 25 > 16`), yet with `c = -25` and `threshold = 2`
the evaluator returns `1`, not `0`: the divergence check runs only after the
update, and the first iterate `z₁ = 5² - 25 = 0` passes the check. -/
theorem julia_quadratic_large_start_not_zero :
    16 < modSq ((5 : ℝ), (0 : ℝ)) ∧ julia_quadratic (5 : ℝ) 0 (-25) 0 2 = 1 := by
  constructor
  · norm_num [modSq]
  · norm_num [julia_quadratic, juliaLoop, juliaStep, modSq]

/-- C2 amended: for every input whose first iterate `z₁ = z₀² + c` has
modulus `> 4` (the check runs after the update, so it is `z₁`, not `z₀`,
that is tested), `julia_quadratic` returns `0` for every `threshold ≥ 1`. -/
theorem julia_quadratic_first_iterate_escape (zx zy cx cy : ℝ) (t : ℤ)
    (ht : 1 ≤ t) (h : 16 < modSq (juliaStep (zx, zy) (cx, cy))) :
    julia_quadratic zx zy cx cy t = 0 := by
  obtain ⟨n, hn⟩ : ∃ n, t.toNat = n + 1 := ⟨t.toNat - 1, by omega⟩
  simp [julia_quadratic, hn, juliaLoop, h]

/-- Witness for the amended C2: this is the spec's known divergence test
`zx=0, zy=0, cx=5, cy=0`, whose first iterate is `5`. -/
theorem julia_quadratic_first_iterate_escape_witness :
    julia_quadratic (0 : ℝ) 0 5 0 1 = 0 :=
  julia_quadratic_first_iterate_escape 0 0 5 0 1 (by norm_num)
    (by norm_num [modSq, juliaStep])

/-- The orbit of the quadratic map: `orbit z c k` is the `k`-th iterate
`z_k` of `z ← z² + c` started at `z_0 = z`. -/
def orbit {K : Type} [Field K] (z c : K × K) : ℕ → K × K
  | 0 => z
  | k + 1 => juliaStep (orbit z c k) c

/-- Starting the orbit one update later shifts its index by one. -/
theorem orbit_juliaStep {K : Type} [Field K] (z c : K × K) (k : ℕ) :
    orbit (juliaStep z c) c k = orbit z c (k + 1) := by
  induction k with
  | zero => rfl
  | succ k ih => simp [orbit, ih]

/-- If no orbit point `z_1 … z_n` escapes, the loop falls through. -/
theorem juliaLoop_none_of_bounded {K : Type} [LinearOrderedField K] (c : K × K) :
    ∀ (n : ℕ) (z : K × K) (i : ℕ),
      (∀ k : ℕ, k < n → modSq (orbit z c (k + 1)) ≤ 16) →
      juliaLoop c z i n = none := by
  intro n
  induction n with
  | zero => intro z i _; simp [juliaLoop]
  | succ n ih =>
    intro z i h
    have h0 : modSq (juliaStep z c) ≤ 16 := by
      have := h 0 (by omega)
      simpa [orbit] using this
    rw [juliaLoop]
    simp only [if_neg (not_lt.mpr h0)]
    apply ih
    intro k hk
    rw [orbit_juliaStep]
    exact h (k + 1) (by omega)

/-- If no iterate up to `t` escapes, `julia_quadratic` returns `t - 1`. -/
theorem julia_quadratic_saturates (zx zy cx cy : ℝ) (t : ℤ) (ht : 1 ≤ t)
    (h : ∀ k : ℕ, 1 ≤ k → (k : ℤ) ≤ t → modSq (orbit (zx, zy) (cx, cy) k) ≤ 16) :
    julia_quadratic zx zy cx cy t = t - 1 := by
  have hnone : juliaLoop ((cx, cy) : ℝ × ℝ) (zx, zy) 0 t.toNat = none := by
    apply juliaLoop_none_of_bounded
    intro k hk
    exact h (k + 1) (by omega) (by omega)
  simp [julia_quadratic, hnone]

/-- The orbit of `z₀ = 0` under `c = 0` is constantly `0`. -/
theorem orbit_zero (k : ℕ) : orbit ((0 : ℝ), 0) (0, 0) k = (0, 0) := by
  induction k with
  | zero => rfl
  | succ k ih =>
    rw [orbit, ih]
    simp only [juliaStep, Prod.mk.injEq]
    norm_num

/-- C5: for every threshold ≥ 1, if no iterate `z_k` (`k = 1..threshold`)
of `z ← z² + c` exceeds modulus 4 (equivalently squared modulus 16), the
evaluator returns `threshold - 1`; in particular
`julia_quadratic 0 0 0 0 50 = 49`. -/
theorem julia_quadratic_saturation :
    (∀ (zx zy cx cy : ℝ) (t : ℤ), 1 ≤ t →
      (∀ k : ℕ, 1 ≤ k → (k : ℤ) ≤ t → modSq (orbit (zx, zy) (cx, cy) k) ≤ 16) →
      julia_quadratic zx zy cx cy t = t - 1) ∧
    julia_quadratic (0 : ℝ) 0 0 0 50 = 49 := by
  constructor
  · exact fun zx zy cx cy t ht h => julia_quadratic_saturates zx zy cx cy t ht h
  · have h : julia_quadratic (0 : ℝ) 0 0 0 50 = 50 - 1 := by
      apply julia_quadratic_saturates 0 0 0 0 50 (by norm_num)
      intro k _ _
      rw [orbit_zero]
      norm_num [modSq]
    simpa using h

/-- Witness for C5's embedded hypotheses at a concrete input. -/
theorem julia_quadratic_saturation_witness :
    julia_quadratic (0 : ℝ) 0 0 0 1 = 0 := by
  have h := julia_quadratic_saturation.1 0 0 0 0 1 (by norm_num)
    (fun k _ _ => by rw [orbit_zero]; norm_num [modSq])
  simpa using h

/-- np.linspace(start, stop, num) with the default endpoint=True, in exact
arithmetic (src/julia.py lines 77-88): `num` uniformly spaced samples whose
`k`-th value is `start + (stop - start) * k / (num - 1)`; `num = 1` gives
`[start]` and `num = 0` gives the empty array.  numpy raises on a negative
sample count, so the callers below pass `Int.toNat` of the Python product. -/
def linspace {K : Type} [LinearOrderedField K] (start stop : K) (num : ℕ) : List K :=
  if num = 0 then []
  else if num = 1 then [start]
  else (List.range num).map fun k : ℕ => start + (stop - start) * (k : K) / ((num - 1 : ℕ) : K)

/-- linspace always yields exactly `num` samples. -/
theorem linspace_length {K : Type} [LinearOrderedField K] (s e : K) (n : ℕ) :
    (linspace s e n).length = n := by
  rcases n with _ | _ | n <;> simp [linspace]

/-- Value of the `k`-th linspace sample, for `num ≥ 2`. -/
theorem linspace_getD {K : Type} [LinearOrderedField K] (s e : K) (n k : ℕ)
    (h2 : 2 ≤ n) (hk : k < n) :
    (linspace s e n).getD k 0 = s + (e - s) * k / ((n - 1 : ℕ) : K) := by
  unfold linspace
  rw [if_neg (by omega), if_neg (by omega), List.getD_eq_getElem?_getD,
    List.getElem?_map, List.getElem?_range hk]
  rfl

/-- The first linspace sample is `start`. -/
theorem linspace_getD_zero {K : Type} [LinearOrderedField K] (s e : K) (n : ℕ)
    (h2 : 2 ≤ n) : (linspace s e n).getD 0 0 = s := by
  rw [linspace_getD s e n 0 h2 (by omega)]
  simp

/-- The last linspace sample is `stop`, for `num ≥ 2`. -/
theorem linspace_getD_last {K : Type} [LinearOrderedField K] (s e : K) (n : ℕ)
    (h2 : 2 ≤ n) : (linspace s e n).getD (n - 1) 0 = e := by
  rw [linspace_getD s e n (n - 1) h2 (by omega)]
  have hne : ((n - 1 : ℕ) : K) ≠ 0 := by
    have : (0 : ℕ) < n - 1 := by omega
    exact_mod_cast Nat.pos_iff_ne_zero.mp (by exact_mod_cast this)
  rw [mul_div_assoc, div_self hne, mul_one]
  ring

/-- linspace is strictly increasing when `start < stop`. -/
theorem linspace_pairwise {K : Type} [LinearOrderedField K] (s e : K) (n : ℕ)
    (h : s < e) : (linspace s e n).Pairwise (· < ·) := by
  unfold linspace
  split
  · simp
  split
  · simp
  next h0 h1 =>
    rw [List.pairwise_map]
    have he : (0 : K) < e - s := sub_pos.mpr h
    have hd : (0 : K) < ((n - 1 : ℕ) : K) := by
      have : (0 : ℕ) < n - 1 := by omega
      exact_mod_cast this
    refine (List.pairwise_lt_range n).imp ?_
    intro a b hab
    have hab' : (a : K) < b := by exact_mod_cast hab
    have : (e - s) * a / ((n - 1 : ℕ) : K) < (e - s) * b / ((n - 1 : ℕ) : K) := by
      apply div_lt_div_of_pos_right ?_ hd
      exact mul_lt_mul_of_pos_left hab' he
    exact add_lt_add_left this s

/-- The configuration record (src/julia.py lines 105-117): recognized
numeric fields plus the collaborator-only `interval` and `filename`. -/
structure Config where
  x_start : ℚ
  y_start : ℚ
  width : ℤ
  height : ℤ
  init_r : ℚ
  density : ℤ
  threshold : ℤ
  interval : ℤ
  frames : ℤ
  filename : String

/-- The hardcoded configuration literal of src/julia.py lines 105-117. -/
def theConfig : Config :=
  { x_start := -2, y_start := -2, width := 4, height := 4, init_r := 0.7885,
    density := 500, threshold := 50, interval := 40, frames := 100,
    filename := "julia_set.gif" }

/-- The attributes stored on a `Julia` object by `__init__`. -/
structure JuliaState where
  conf : Config
  x_start : ℚ
  y_start : ℚ
  width : ℤ
  height : ℤ
  init_r : ℚ
  density : ℤ
  threshold : ℤ
  interval : ℤ
  frames : ℤ

/-- Julia.__init__ (src/julia.py lines 9-19): stores the config object and
copies its fields onto attributes; the body contains no validation of any
kind, so construction is a total function of the configuration. -/
def Julia_init (config : Config) : JuliaState :=
  { conf := config, x_start := config.x_start, y_start := config.y_start,
    width := config.width, height := config.height, init_r := config.init_r,
    density := config.density, threshold := config.threshold,
    interval := config.interval, frames := config.frames }

/-- self.re (src/julia.py lines 77-81): the real-axis sampling sequence,
built once in `generate`.  The sample count passed to `np.linspace` is the
Python int `width * density`; `np.linspace` raises `ValueError` when that
count is negative, a failing path modelled by `generate_setup` below, so
`reAxis` (with its `Int.toNat`, exact for non-negative counts) is the grid
actually built whenever setup completes. -/
def reAxis (s : JuliaState) : List ℚ :=
  linspace s.x_start (s.x_start + (s.width : ℚ)) (s.width * s.density).toNat

/-- self.im (src/julia.py lines 82-86): the imaginary-axis sampling
sequence, built once in `generate`; as with `reAxis`, the negative-count
`ValueError` of `np.linspace` is modelled by `generate_setup`. -/
def imAxis (s : JuliaState) : List ℚ :=
  linspace s.y_start (s.y_start + (s.height : ℚ)) (s.height * s.density).toNat

/-- The degenerate (but spec-valid) configuration used to refute C6's
unconditional endpoint invariant: one sample per axis. -/
def degenerateConfig : Config :=
  { theConfig with width := 1, height := 1, density := 1 }

/-- C6 counterexample: for the configuration with `width = height =
density = 1` the real axis has a single sample `[x_start]`, so the final
endpoint is `x_start`, not `x_start + width`: the endpoint invariant fails. -/
theorem sampling_grid_endpoint_fails :
    ¬ ((reAxis (Julia_init degenerateConfig)).getD
        ((reAxis (Julia_init degenerateConfig)).length - 1) 0 =
      (Julia_init degenerateConfig).x_start +
        ((Julia_init degenerateConfig).width : ℚ)) := by
  norm_num [reAxis, Julia_init, degenerateConfig, theConfig, linspace]

/-- C6 amended: for every configuration with positive width, height and
density and at least two samples per axis (the shipped configuration has
2000), each axis sequence has length `extent * density`, is strictly
increasing, and runs from `start` to `start + extent`; for the shipped
configuration both axes have exactly `4 * 500 = 2000` samples.  (The grid
is a pure value computed once during setup; every frame reads the same
`reAxis`/`imAxis` value, so cross-frame immutability is structural.) -/
theorem sampling_grid_invariant (s : JuliaState)
    (hw : 0 < s.width) (hh : 0 < s.height) (hd : 0 < s.density)
    (hw2 : 2 ≤ s.width * s.density) (hh2 : 2 ≤ s.height * s.density) :
    ((reAxis s).length = (s.width * s.density).toNat ∧
      (reAxis s).Pairwise (· < ·) ∧
      (reAxis s).getD 0 0 = s.x_start ∧
      (reAxis s).getD ((reAxis s).length - 1) 0 = s.x_start + (s.width : ℚ)) ∧
    ((imAxis s).length = (s.height * s.density).toNat ∧
      (imAxis s).Pairwise (· < ·) ∧
      (imAxis s).getD 0 0 = s.y_start ∧
      (imAxis s).getD ((imAxis s).length - 1) 0 = s.y_start + (s.height : ℚ)) ∧
    ((reAxis (Julia_init theConfig)).length = 2000 ∧
      (imAxis (Julia_init theConfig)).length = 2000) := by
  have hwQ : (0 : ℚ) < (s.width : ℚ) := by exact_mod_cast hw
  have hhQ : (0 : ℚ) < (s.height : ℚ) := by exact_mod_cast hh
  have hw2' : 2 ≤ (s.width * s.density).toNat := by omega
  have hh2' : 2 ≤ (s.height * s.density).toNat := by omega
  refine ⟨⟨linspace_length _ _ _, ?_, ?_, ?_⟩,
    ⟨linspace_length _ _ _, ?_, ?_, ?_⟩, ?_, ?_⟩
  · exact linspace_pairwise _ _ _ (lt_add_of_pos_right _ hwQ)
  · exact linspace_getD_zero _ _ _ hw2'
  · rw [reAxis, linspace_length]
    exact linspace_getD_last _ _ _ hw2'
  · exact linspace_pairwise _ _ _ (lt_add_of_pos_right _ hhQ)
  · exact linspace_getD_zero _ _ _ hh2'
  · rw [imAxis, linspace_length]
    exact linspace_getD_last _ _ _ hh2'
  · norm_num [Julia_init, reAxis, theConfig, linspace_length]
    decide
  · norm_num [Julia_init, imAxis, theConfig, linspace_length]
    decide

/-- Witness for C6 (amended) at the shipped configuration. -/
theorem sampling_grid_invariant_witness :
    ((reAxis (Julia_init theConfig)).length =
        ((Julia_init theConfig).width * (Julia_init theConfig).density).toNat ∧
      (reAxis (Julia_init theConfig)).Pairwise (· < ·) ∧
      (reAxis (Julia_init theConfig)).getD 0 0 = (Julia_init theConfig).x_start ∧
      (reAxis (Julia_init theConfig)).getD
          ((reAxis (Julia_init theConfig)).length - 1) 0 =
        (Julia_init theConfig).x_start + ((Julia_init theConfig).width : ℚ)) ∧
    ((imAxis (Julia_init theConfig)).length =
        ((Julia_init theConfig).height * (Julia_init theConfig).density).toNat ∧
      (imAxis (Julia_init theConfig)).Pairwise (· < ·) ∧
      (imAxis (Julia_init theConfig)).getD 0 0 = (Julia_init theConfig).y_start ∧
      (imAxis (Julia_init theConfig)).getD
          ((imAxis (Julia_init theConfig)).length - 1) 0 =
        (Julia_init theConfig).y_start + ((Julia_init theConfig).height : ℚ)) ∧
    ((reAxis (Julia_init theConfig)).length = 2000 ∧
      (imAxis (Julia_init theConfig)).length = 2000) :=
  sampling_grid_invariant (Julia_init theConfig) (by decide) (by decide)
    (by decide) (by decide) (by decide)

/-- self.a (src/julia.py line 88): `np.linspace(0, 2*np.pi, frames)`. -/
noncomputable def angleSeq (s : JuliaState) : List ℝ :=
  linspace 0 (2 * Real.pi) s.frames.toNat

/-- The setup phase of `generate` (src/julia.py lines 77-88), in program
order: build `self.re`, `self.im` and `self.a` with `np.linspace`.
`np.linspace` raises `ValueError` when its sample count is negative, and
that is the only way any of these three calls can fail on our integer
configuration fields; `none` models that raise (aborting setup), `some`
the successfully built triple.  No configuration field other than the three
sample counts is inspected: in particular `threshold` is never checked. -/
noncomputable def generate_setup (s : JuliaState) : Option (List ℚ × List ℚ × List ℝ) :=
  if s.width * s.density < 0 then none
  else if s.height * s.density < 0 then none
  else if s.frames < 0 then none
  else some (reAxis s, imAxis s, angleSeq s)

/-- C4 amended: no eager `InvalidArgument` validation of the configuration
exists: `__init__` stores every field unchanged — malformed values such as
`threshold < 1` included — and for every configuration whose three numpy
sample counts (`width*density`, `height*density`, `frames`) are
non-negative, the setup phase of `generate` completes and builds the grid
regardless of `threshold`.  The only setup-time failure is numpy's
incidental `ValueError` on a negative sample count; `threshold`, a zero
`density` and a zero `frames` are never detected. -/
theorem Julia_init_no_validation (c : Config)
    (hw : 0 ≤ c.width * c.density) (hh : 0 ≤ c.height * c.density)
    (hf : 0 ≤ c.frames) :
    (Julia_init c).threshold = c.threshold ∧
    (Julia_init c).frames = c.frames ∧
    (Julia_init c).density = c.density ∧
    generate_setup (Julia_init c) =
      some (reAxis (Julia_init c), imAxis (Julia_init c), angleSeq (Julia_init c)) ∧
    (reAxis (Julia_init c)).length = (c.width * c.density).toNat ∧
    (imAxis (Julia_init c)).length = (c.height * c.density).toNat := by
  refine ⟨rfl, rfl, rfl, ?_, ?_, ?_⟩
  · have h1 : ¬ ((Julia_init c).width * (Julia_init c).density < 0) := by
      simp only [Julia_init]
      omega
    have h2 : ¬ ((Julia_init c).height * (Julia_init c).density < 0) := by
      simp only [Julia_init]
      omega
    have h3 : ¬ ((Julia_init c).frames < 0) := by
      simp only [Julia_init]
      omega
    rw [generate_setup, if_neg h1, if_neg h2, if_neg h3]
  · simp [Julia_init, reAxis, linspace_length]
  · simp [Julia_init, imAxis, linspace_length]

/-- C4 counterexample: the malformed configuration with `threshold = 0`
(`< 1`) is accepted: setup completes normally (`generate_setup` succeeds),
the state records the malformed threshold, and the 2000-sample grid is
built — the run is not aborted before frame computation. -/
theorem Julia_init_malformed_accepted :
    (Julia_init { theConfig with threshold := 0 }).threshold = 0 ∧
    (generate_setup (Julia_init { theConfig with threshold := 0 })).isSome = true ∧
    (reAxis (Julia_init { theConfig with threshold := 0 })).length = 2000 := by
  refine ⟨rfl, ?_, ?_⟩
  · rw [generate_setup, if_neg (by decide), if_neg (by decide), if_neg (by decide)]
    rfl
  · norm_num [Julia_init, reAxis, theConfig, linspace_length]
    decide

/-- Witness for the amended C4 at the malformed `threshold = 0`
configuration, whose sample counts are non-negative. -/
theorem Julia_init_no_validation_witness :
    (Julia_init { theConfig with threshold := 0 }).threshold =
      ({ theConfig with threshold := 0 } : Config).threshold ∧
    (Julia_init { theConfig with threshold := 0 }).frames =
      ({ theConfig with threshold := 0 } : Config).frames ∧
    (Julia_init { theConfig with threshold := 0 }).density =
      ({ theConfig with threshold := 0 } : Config).density ∧
    generate_setup (Julia_init { theConfig with threshold := 0 }) =
      some (reAxis (Julia_init { theConfig with threshold := 0 }),
        imAxis (Julia_init { theConfig with threshold := 0 }),
        angleSeq (Julia_init { theConfig with threshold := 0 })) ∧
    (reAxis (Julia_init { theConfig with threshold := 0 })).length =
      (({ theConfig with threshold := 0 } : Config).width *
        ({ theConfig with threshold := 0 } : Config).density).toNat ∧
    (imAxis (Julia_init { theConfig with threshold := 0 })).length =
      (({ theConfig with threshold := 0 } : Config).height *
        ({ theConfig with threshold := 0 } : Config).density).toNat :=
  Julia_init_no_validation { theConfig with threshold := 0 }
    (by decide) (by decide) (by decide)

/-- The angle `self.a[i]` read by `animate` (src/julia.py line 62). -/
noncomputable def frameAngle (s : JuliaState) (i : ℕ) : ℝ :=
  (angleSeq s).getD i 0

/-- The per-frame constant (src/julia.py lines 62-63):
`cx = init_r * cos(a)`, `cy = init_r * sin(a)`. -/
noncomputable def frameConstant (r a : ℝ) : ℝ × ℝ :=
  (r * Real.cos a, r * Real.sin a)

/-- The constant `c` used by frame `i`. -/
noncomputable def frameC (s : JuliaState) (i : ℕ) : ℝ × ℝ :=
  frameConstant (s.init_r : ℝ) (frameAngle s i)

/-- The array `X` filled by the double loop of `animate` (src/julia.py
lines 59-68): `X[i][j] = julia_quadratic(re[i], im[j], cx, cy, threshold)`,
so `X` has `len(re)` rows of `len(im)` entries each. -/
def animateX {K : Type} [LinearOrderedField K]
    (re im : List K) (cx cy : K) (t : ℤ) : List (List ℤ) :=
  re.map fun zx => im.map fun zy => julia_quadratic zx zy cx cy t

/-- numpy's `X.T` on a rectangular 2-D array (src/julia.py line 70): row `j`
of the transpose is column `j` of `X`.  Written with the classic head/tail
recursion, which agrees with numpy's index-swap semantics on the rectangular
arrays produced by `animate`. -/
def transposeL {α : Type} : List (List α) → List (List α)
  | [] => []
  | [r] => r.map fun a => [a]
  | r :: r' :: rest => List.zipWith List.cons r (transposeL (r' :: rest))

/-- The frame handed to the rendering collaborator (src/julia.py line 70):
the transposed escape grid `X.T` for frame `i`. -/
noncomputable def frameImage (s : JuliaState) (i : ℕ) : List (List ℤ) :=
  transposeL (animateX ((reAxis s).map fun q : ℚ => (q : ℝ))
    ((imAxis s).map fun q : ℚ => (q : ℝ)) (frameC s i).1 (frameC s i).2 s.threshold)

/-- Zipping two maps of the same list with cons is a single map. -/
theorem zipWith_cons_map_map {α β : Type} (g : α → β) (h : α → List β)
    (l : List α) :
    List.zipWith List.cons (l.map g) (l.map h) = l.map fun x => g x :: h x := by
  induction l with
  | nil => rfl
  | cons a l ih => simp [ih]

/-- The transposed escape grid is the grid with the two loops swapped:
row `j` collects the evaluations at the `j`-th imaginary sample. -/
theorem animateX_transposeL {K : Type} [LinearOrderedField K]
    (re im : List K) (cx cy : K) (t : ℤ) (hre : re ≠ []) :
    transposeL (animateX re im cx cy t) =
      im.map fun zy => re.map fun zx => julia_quadratic zx zy cx cy t := by
  induction re with
  | nil => exact absurd rfl hre
  | cons a re ih =>
    cases re with
    | nil =>
      simp only [animateX, List.map_cons, List.map_nil, transposeL, List.map_map]
      rfl
    | cons b re' =>
      have ih' := ih (by simp)
      simp only [animateX, List.map_cons] at ih' ⊢
      rw [transposeL, ih', zipWith_cons_map_map]

/-- C7: every per-frame constant lies exactly on the circle of radius
`init_r`: `cx² + cy² = init_r²` (idealising the float trigonometry as exact
real arithmetic, where `cos² + sin² = 1`). -/
theorem frame_constant_on_circle (s : JuliaState) (i : ℕ)
    (h : (i : ℤ) < s.frames) :
    (frameC s i).1 ^ 2 + (frameC s i).2 ^ 2 = ((s.init_r : ℝ)) ^ 2 := by
  unfold frameC frameConstant
  have ha := Real.cos_sq_add_sin_sq (frameAngle s i)
  calc ((s.init_r : ℝ) * Real.cos (frameAngle s i)) ^ 2 +
        ((s.init_r : ℝ) * Real.sin (frameAngle s i)) ^ 2
      = ((s.init_r : ℝ)) ^ 2 *
        (Real.cos (frameAngle s i) ^ 2 + Real.sin (frameAngle s i) ^ 2) := by ring
    _ = ((s.init_r : ℝ)) ^ 2 := by rw [ha, mul_one]

/-- Witness for C7 at the shipped configuration, frame 0. -/
theorem frame_constant_on_circle_witness :
    (frameC (Julia_init theConfig) 0).1 ^ 2 + (frameC (Julia_init theConfig) 0).2 ^ 2 =
      (((Julia_init theConfig).init_r : ℝ)) ^ 2 :=
  frame_constant_on_circle (Julia_init theConfig) 0 (by decide)

/-- C8 amended: for every configuration with `threshold ≥ 1` and at least
one real-axis sample, the 2-D array emitted to the rendering collaborator is
the transpose of the `(W, H)` escape grid and therefore has shape `(H, W)`
(`W = width*density`, `H = height*density`); every cell value is an integer
in `[0, threshold-1]`. -/
theorem frame_image_shape_and_range (s : JuliaState) (i : ℕ)
    (ht : 1 ≤ s.threshold) (hre : 1 ≤ s.width * s.density) :
    (frameImage s i).length = (s.height * s.density).toNat ∧
    (∀ row ∈ frameImage s i, row.length = (s.width * s.density).toNat) ∧
    (∀ row ∈ frameImage s i, ∀ v ∈ row, 0 ≤ v ∧ v ≤ s.threshold - 1) := by
  have hne : ((reAxis s).map fun q => ((q : ℚ) : ℝ)) ≠ [] := by
    apply List.length_pos.mp
    rw [List.length_map, reAxis, linspace_length]
    omega
  rw [frameImage, animateX_transposeL _ _ _ _ _ hne]
  refine ⟨?_, ?_, ?_⟩
  · rw [List.length_map, List.length_map, imAxis, linspace_length]
  · intro row hrow
    obtain ⟨zy, _, rfl⟩ := List.mem_map.mp hrow
    rw [List.length_map, List.length_map, reAxis, linspace_length]
  · intro row hrow v hv
    obtain ⟨zy, _, rfl⟩ := List.mem_map.mp hrow
    obtain ⟨zx, _, rfl⟩ := List.mem_map.mp hv
    exact julia_quadratic_bounds _ _ _ _ _ ht

/-- A configuration whose escape grid is not square, used to exhibit the
transposed shape of the emitted array. -/
def asymmetricConfig : Config :=
  { theConfig with width := 1, height := 2, density := 1 }

/-- C8 counterexample: for the configuration with `width*density = 1` and
`height*density = 2`, the array emitted for frame 0 has 2 rows, not
`W = width*density = 1`: the emitted array is `X.T`, of shape `(H, W)`,
not `(W, H)` as claimed. -/
theorem frame_image_not_W_by_H :
    (frameImage (Julia_init asymmetricConfig) 0).length ≠
      ((Julia_init asymmetricConfig).width * (Julia_init asymmetricConfig).density).toNat := by
  have hne : ((reAxis (Julia_init asymmetricConfig)).map fun q => ((q : ℚ) : ℝ)) ≠ [] := by
    apply List.length_pos.mp
    rw [List.length_map, reAxis, linspace_length]
    decide
  rw [frameImage, animateX_transposeL _ _ _ _ _ hne, List.length_map,
    List.length_map, imAxis, linspace_length]
  decide

/-- Witness for the amended C8 at the shipped configuration, frame 0. -/
theorem frame_image_shape_and_range_witness :
    (frameImage (Julia_init theConfig) 0).length =
      ((Julia_init theConfig).height * (Julia_init theConfig).density).toNat ∧
    (∀ row ∈ frameImage (Julia_init theConfig) 0,
      row.length = ((Julia_init theConfig).width * (Julia_init theConfig).density).toNat) ∧
    (∀ row ∈ frameImage (Julia_init theConfig) 0, ∀ v ∈ row,
      0 ≤ v ∧ v ≤ (Julia_init theConfig).threshold - 1) :=
  frame_image_shape_and_range (Julia_init theConfig) 0 (by decide) (by decide)

/-- C9: for every configuration with `frames ≥ 2`, the angle sequence
`linspace(0, 2π, frames)` includes both endpoints `0` and `2π`; since
`cos`/`sin` have period `2π`, the constant of frame 0 equals the constant
of frame `frames - 1`, and the two frames' emitted grids are identical. -/
theorem first_last_frame_agree (s : JuliaState) (h2 : 2 ≤ s.frames) :
    frameAngle s 0 = 0 ∧
    frameAngle s (s.frames.toNat - 1) = 2 * Real.pi ∧
    frameC s 0 = frameC s (s.frames.toNat - 1) ∧
    frameImage s 0 = frameImage s (s.frames.toNat - 1) := by
  have hn : 2 ≤ s.frames.toNat := by omega
  have ha0 : frameAngle s 0 = 0 := by
    unfold frameAngle angleSeq
    exact linspace_getD_zero _ _ _ hn
  have haL : frameAngle s (s.frames.toNat - 1) = 2 * Real.pi := by
    unfold frameAngle angleSeq
    exact linspace_getD_last _ _ _ hn
  have hc : frameC s 0 = frameC s (s.frames.toNat - 1) := by
    unfold frameC
    rw [ha0, haL]
    unfold frameConstant
    rw [Real.cos_two_pi, Real.sin_two_pi, Real.cos_zero, Real.sin_zero]
  refine ⟨ha0, haL, hc, ?_⟩
  unfold frameImage
  rw [hc]

/-- Witness for C9 at the shipped configuration (100 frames). -/
theorem first_last_frame_agree_witness :
    frameAngle (Julia_init theConfig) 0 = 0 ∧
    frameAngle (Julia_init theConfig) ((Julia_init theConfig).frames.toNat - 1) =
      2 * Real.pi ∧
    frameC (Julia_init theConfig) 0 =
      frameC (Julia_init theConfig) ((Julia_init theConfig).frames.toNat - 1) ∧
    frameImage (Julia_init theConfig) 0 =
      frameImage (Julia_init theConfig) ((Julia_init theConfig).frames.toNat - 1) :=
  first_last_frame_agree (Julia_init theConfig) (by decide)

end JuliaPy
